import Mathlib

/-!
Shallow embedding of the component decoder and record assembler of
`src/sm/record.py` (geomotion).  Streams are modelled as `List String`, one
element per line as returned by Python's `readline` with the trailing newline
stripped; an exhausted stream yields the empty string `""`, exactly the value
Python's `readline` returns at end of file.  Python floats are modelled as
rationals; the numeric literals appearing in these files are plain decimals,
which `float` parses exactly.
-/

set_option maxRecDepth 200000

namespace Geomotion

/- The batteries arithmetic on `Rat` is sealed; the concrete evaluations below
need it to unfold. -/
attribute [local semireducible] Rat.mul Rat.inv Rat.add Rat.sub

/-- Python whitespace characters relevant to `.split()` / `.isspace()` for the
character set occurring in GeoNet files. -/
def isWsChar (c : Char) : Bool :=
  c = ' ' || c = '\t' || c = '\n' || c = '\r'

/-- Python `str.isspace()`: true iff the string is nonempty and all whitespace. -/
def isSpaceStr (s : String) : Bool :=
  !s.toList.isEmpty && s.toList.all isWsChar

/-- Helper for `splitWs`: accumulates the current (reversed) token. -/
def splitWsAux : List Char → List Char → List String
  | [], cur => if cur.isEmpty then [] else [String.mk cur.reverse]
  | c :: rest, cur =>
    if isWsChar c then
      if cur.isEmpty then splitWsAux rest []
      else String.mk cur.reverse :: splitWsAux rest []
    else splitWsAux rest (c :: cur)

/-- Python `str.split()` with no argument: split on runs of whitespace,
discarding empty tokens. -/
def splitWs (s : String) : List String :=
  splitWsAux s.toList []

/-- Accumulate decimal digits into a natural number; fails on a non-digit. -/
def digitsAux : List Char → ℕ → Option ℕ
  | [], acc => some acc
  | c :: r, acc =>
    if c.isDigit then digitsAux r (acc * 10 + (c.toNat - 48)) else none

/-- Parse a nonempty string of decimal digits. -/
def parseNatDigits (l : List Char) : Option ℕ :=
  if l.isEmpty then none else digitsAux l 0

/-- Python `int(token)` for a sign-and-digits token (as produced by `split()`). -/
def parseInt? (s : String) : Option ℤ :=
  match s.toList with
  | '-' :: r => (parseNatDigits r).map (fun n => -(n : ℤ))
  | '+' :: r => (parseNatDigits r).map (fun n => (n : ℤ))
  | l => (parseNatDigits l).map (fun n => (n : ℤ))

/-- Unsigned decimal: digits, optionally with a point and fraction digits. -/
def parseUFrac (l : List Char) : Option ℚ :=
  let ip := l.takeWhile (fun c => c ≠ '.')
  match l.dropWhile (fun c => c ≠ '.') with
  | [] => (parseNatDigits ip).map (fun n => (n : ℚ))
  | _ :: fp =>
    if ip.isEmpty && fp.isEmpty then none
    else
      match (if ip.isEmpty then some 0 else parseNatDigits ip),
            (if fp.isEmpty then some 0 else parseNatDigits fp) with
      | some i, some f => some ((i : ℚ) + (f : ℚ) / (10 : ℚ) ^ fp.length)
      | _, _ => none

/-- Python `float(field)` for the plain decimal fields of these files;
surrounding whitespace is tolerated, as `float` does. -/
def parseFloat? (s : String) : Option ℚ :=
  let t := (s.toList.dropWhile isWsChar).reverse.dropWhile isWsChar |>.reverse
  match t with
  | '-' :: r => (parseUFrac r).map Neg.neg
  | '+' :: r => parseUFrac r
  | l => parseUFrac l

/-- Python `line[a:b]` on strings: clipped character slice. -/
def strSlice (s : String) (a b : ℕ) : String :=
  String.mk ((s.toList.drop a).take (b - a))

/-- One data line split into the ten 8-character blocks
`[line[i*8:i*8+8] for i in range(10)]`, keeping, as the source does, only the
fields for which `value.isspace()` is false. -/
def lineFields (line : String) : List String :=
  ((List.range 10).map (fun i => strSlice line (i * 8) (i * 8 + 8))).filter
    (fun v => !(isSpaceStr v))

/-- Python `source.readline()`: next line, or `""` at end of stream. -/
def readline (s : List String) : String × List String :=
  (s.headD "", s.tail)

/-- Performs `n` consecutive `readline` calls. -/
def readN : ℕ → List String → List String × List String
  | 0, s => ([], s)
  | n + 1, s =>
    let p := readline s
    let q := readN n p.2
    (p.1 :: q.1, q.2)

/-- At end of stream every `readline` returns `""`, whose ten slices are all
`""`; `"".isspace()` is false, so each such iteration of the sample loop
appends ten empty-string fields.  `eofFill k` is the closed form of iterating
that until at least `k` more fields have accumulated. -/
def eofFill (k : ℕ) : List String :=
  List.replicate (10 * ((k + 9) / 10)) ""

/-- The sample-reading loop
`while len(all_data) < a: line = source.readline(); ...extend(fields)`:
accumulates the non-blank fixed-width fields of whole lines until the
accumulated count reaches `target`, returning the accumulated fields and the
unconsumed remainder of the stream. -/
def readData (target : ℕ) : List String → List String → List String × List String
  | [], acc =>
    if target ≤ acc.length then (acc, [])
    else (acc ++ eofFill (target - acc.length), [])
  | l :: rest, acc =>
    if target ≤ acc.length then (acc, l :: rest)
    else readData target rest (acc ++ lineFields l)

/-- Specification function: how many lines the sample loop consumes from the
stream, starting from an accumulated count `c`. -/
def stopIndex (target : ℕ) : List String → ℕ → ℕ
  | [], _ => 0
  | l :: rest, c =>
    if target ≤ c then 0 else stopIndex target rest (c + (lineFields l).length) + 1

/-- Total field count of a list of lines. -/
def fieldsCount (ls : List String) : ℕ :=
  (ls.map (fun l => (lineFields l).length)).sum

/-- Decoder failure modes: `eof` is the `EOFError` raised when the stream is
already exhausted; `malformed` stands for the `ValueError`s raised by `int()`,
`float()`, tuple unpacking or the numpy conversion on a structurally broken
block. -/
inductive PErr
  | eof
  | malformed
deriving DecidableEq

/-- The `header['event']` sub-dictionary. -/
structure EventInfo where
  time : ℤ × ℤ × ℤ × ℤ × ℤ × ℤ
  latitude : ℚ
  longitude : ℚ
  hypocentralDepth : ℤ
  centroidDepth : ℤ
  bearing : ℤ
  distance : ℤ
deriving DecidableEq, Inhabited

/-- The `header['magnitudes']` sub-dictionary. -/
structure Magnitudes where
  ml : ℚ
  ms : ℚ
  mw : ℚ
  mb : ℚ
deriving DecidableEq, Inhabited

/-- The `header` dictionary built by `parse_component`. -/
structure Header where
  heading : String
  event : EventInfo
  siteLatitude : ℚ
  siteLongitude : ℚ
  longitudinalAxis : ℤ
  axis : ℤ
  bufferStart : ℤ × ℤ × ℤ × ℤ × ℤ × ℤ
  magnitudes : Magnitudes
  duration : ℚ
  timestep : ℚ
  localGravity : ℚ
deriving DecidableEq, Inhabited

/-- The `data` dictionary built by `parse_component`: each kind is either
absent (`None` in the source) or a list of samples. -/
structure ChannelData where
  acceleration : Option (List ℚ)
  velocity : Option (List ℚ)
  displacement : Option (List ℚ)
deriving DecidableEq, Inhabited

/-- Full result of one decode.  Besides the `(header, data)` pair and the
stream remainder, it records as specification-only ghost fields the raw
integers of the header lines that the source binds to local variables but does
not store (DMS triples, declared counts) and the accumulated value sequence. -/
structure ParseOut where
  header : Header
  data : ChannelData
  eDeg : ℤ
  eMin : ℤ
  eSec : ℤ
  sDeg : ℤ
  sMin : ℤ
  sSec : ℤ
  total : ℤ
  pre : ℤ
  app : ℤ
  countA : ℤ
  countV : ℤ
  countD : ℤ
  allData : List ℚ
  rest : List String
deriving DecidableEq, Inhabited

/-- Python `map(f, tokens)` collected strictly: any failing element fails the whole
list, as the eager Python 2 `map` does when `int`/`float` raises. -/
def mapMOpt {α β : Type} (f : α → Option β) : List α → Option (List β)
  | [] => some []
  | c :: t =>
    match f c, mapMOpt f t with
    | some b, some bs => some (b :: bs)
    | _, _ => none

/-- The pattern `y, ... = map(int, source.readline().split())` with ten targets: reads a
line and parses exactly ten integers, else the `ValueError` is a malformed
block. -/
def readIntLine (s : List String) :
    Except PErr ((ℤ × ℤ × ℤ × ℤ × ℤ × ℤ × ℤ × ℤ × ℤ × ℤ) × List String) :=
  match mapMOpt parseInt? (splitWs (readline s).1) with
  | some [a, b, c, d, e, f, g, h, i, j] => .ok ((a, b, c, d, e, f, g, h, i, j), (readline s).2)
  | _ => .error .malformed

/-- Ten floats from one line, as in the two parsed floating-point lines. -/
def readFloatLine (s : List String) :
    Except PErr ((ℚ × ℚ × ℚ × ℚ × ℚ × ℚ × ℚ × ℚ × ℚ × ℚ) × List String) :=
  match mapMOpt parseFloat? (splitWs (readline s).1) with
  | some [a, b, c, d, e, f, g, h, i, j] => .ok ((a, b, c, d, e, f, g, h, i, j), (readline s).2)
  | _ => .error .malformed

/-- Body of `parse_component` after the 16 heading lines have been read.
Mirrors the source statement by statement; integer division models Python 2
`/` on the nonnegative time fields, and the final slice arithmetic models
numpy slicing (clipping) for the nonnegative counts these files carry.  Note
that, exactly as in the source, the displacement slice is gated and bounded by
the *duration* float, which the source rebinds over the displacement count
(`d`) when unpacking the third float line; the fractional slice endpoint is
truncated the way the era's numpy applied `int()` to float slice bounds, and
`Rat.floor` coincides with that truncation on the nonnegative values these
files carry. -/
def parseBody (heading : String) (s1 : List String) : Except PErr ParseOut :=
  match readIntLine s1 with
  | .error e => .error e
  | .ok ((y, mo, dy, hr, mn, sec, _, _, byr, bmo), s2) =>
  match readIntLine s2 with
  | .error e => .error e
  | .ok ((ed, em, es, edd, emm, ess, eh, ec, bdy, bhr), s3) =>
  match readIntLine s3 with
  | .error e => .error e
  | .ok ((sd, sm, ss, sdd, smm, sss, la, cd, br, dist), s4) =>
  match readIntLine s4 with
  | .error e => .error e
  | .ok ((t, pre, app, a, v, dcount, _, _, bmin, bsec), s5) =>
  match readFloatLine (readline s5).2 with
  | .error e => .error e
  | .ok ((_, _, _, _, ml, ms, mw, mb, _, _), s7) =>
  match readFloatLine s7 with
  | .error e => .error e
  | .ok ((dur, _, _, _, _, dt, _, _, _, g), s8) =>
  match mapMOpt parseFloat?
      (readData a.toNat (readline (readline (readline s8).2).2).2 []).1 with
  | none => .error .malformed
  | some allData =>
    let start0 := pre.toNat
    let accel : Option (List ℚ) × ℕ :=
      if a = 0 then (none, start0)
      else (some (((allData.drop start0).take a.toNat).map (· / 1000)), start0 + a.toNat)
    let vel : Option (List ℚ) × ℕ :=
      if v = 0 then (none, accel.2)
      else (some (((allData.drop accel.2).take v.toNat).map (· / 1000)), accel.2 + v.toNat)
    let disp : Option (List ℚ) :=
      if dur = 0 then none
      else some (((allData.drop vel.2).take
        ((Rat.floor ((vel.2 : ℚ) + dur)).toNat - vel.2)).map (· / 1000))
    .ok
      { header :=
          { heading := heading
            event :=
              { time := (y, mo, dy, hr, mn, sec / 10)
                latitude := -((ed : ℚ) + ((em : ℚ) * 60 + (es : ℚ)) / 3600)
                longitude := (edd : ℚ) + ((emm : ℚ) * 60 + (ess : ℚ)) / 3600
                hypocentralDepth := eh
                centroidDepth := ec
                bearing := br
                distance := dist * 1000 }
            siteLatitude := -((sd : ℚ) + ((sm : ℚ) * 60 + (ss : ℚ)) / 3600)
            siteLongitude := (sdd : ℚ) + ((smm : ℚ) * 60 + (sss : ℚ)) / 3600
            longitudinalAxis := la
            axis := cd
            bufferStart := (byr, bmo, bdy, bhr, bmin, bsec / 1000)
            magnitudes := { ml := ml, ms := ms, mw := mw, mb := mb }
            duration := dur
            timestep := dt
            localGravity := g / 1000 }
        data := { acceleration := accel.1, velocity := vel.1, displacement := disp }
        eDeg := ed, eMin := em, eSec := es
        sDeg := sd, sMin := sm, sSec := ss
        total := t, pre := pre, app := app
        countA := a, countV := v, countD := dcount
        allData := allData
        rest := (readData a.toNat (readline (readline (readline s8).2).2).2 []).2 }

/-- The decoder `parse_component`: 16 heading lines first; if the very first `readline`
returned no data the stream was exhausted and `EOFError` is raised; otherwise
the block body is decoded. -/
def parseComponentAux (s : List String) : Except PErr ParseOut :=
  if (readN 16 s).1.headD "" = "" then .error .eof
  else parseBody (String.join (readN 16 s).1) (readN 16 s).2

/-- The `(header, data)` pair and stream remainder, without ghost fields:
the value `parse_component` actually returns (plus the advanced cursor). -/
def parseComponent (s : List String) :
    Except PErr ((Header × ChannelData) × List String) :=
  (parseComponentAux s).map (fun o => ((o.header, o.data), o.rest))

/-- The generator `component_iterator`: repeatedly decode until `EOFError`, which ends the
sequence cleanly; any other decoder failure propagates to the consumer.  The
fuel argument of the worker is an upper bound on the number of components a
stream of that many lines can hold; `none` (fuel exhausted) is unreachable
from `componentIterator`. -/
def componentIterGo : ℕ → List String → Option (Except PErr (List (Header × ChannelData)))
  | 0, _ => none
  | n + 1, s =>
    match parseComponentAux s with
    | .error .eof => some (.ok [])
    | .error e => some (.error e)
    | .ok o =>
      match componentIterGo n o.rest with
      | none => none
      | some (.error e) => some (.error e)
      | some (.ok l) => some (.ok ((o.header, o.data) :: l))

/-- The component sequence of a whole stream. -/
def componentIterator (s : List String) :
    Option (Except PErr (List (Header × ChannelData))) :=
  componentIterGo (s.length + 1) s

/-- Failure modes of `Record.__init__`: a decoder error propagating out of the
iterator, the argument-less `TooFewComponents`, and the untyped `TypeError`
Python raises when `len(...)` or arithmetic is applied to an absent (`None`)
acceleration sequence.  `noFuel` is an artifact of the fuelled loop below and
is proved unreachable for the fuel `recordInit` supplies. -/
inductive RErr
  | parse (e : PErr)
  | tooFewComponents
  | typeError
  | noFuel
deriving DecidableEq

/-- The in-progress `Record` instance: its public attributes plus the local
loop state (`first_run`, `seen_axes`, `horizontal_axes`, `vertical_axis`).
The 3×n acceleration grid is the three rows `row0`, `row1`, `row2`. -/
structure RState where
  firstRun : Bool
  site : List (String × ℚ)
  event : EventInfo
  magnitudes : Magnitudes
  start : ℤ × ℤ × ℤ × ℤ × ℤ × ℤ
  timestep : ℚ
  duration : ℚ
  dataLength : ℕ
  row0 : List ℚ
  row1 : List ℚ
  row2 : List ℚ
  timeRow : List ℚ
  seenAxes : List ℤ
  horiz : ℕ
  vert : Bool
deriving DecidableEq, Inhabited

/-- The `header['site']` dictionary as stored at that point: the four keys
`self.site.update(header['site'])` merges into the caller's dictionary. -/
def siteFieldsOf (hd : Header) : List (String × ℚ) :=
  [("latitude", hd.siteLatitude), ("longitude", hd.siteLongitude),
   ("longitudinal_axis", (hd.longitudinalAxis : ℚ)),
   ("local_gravity", hd.localGravity)]

/-- The `first_run` block of the loop body: captures the shared record fields
from the first channel and allocates the zero grid.  `none` models the
`TypeError` Python raises on `len(None)` when the first channel has no
acceleration sequence.  The dictionary `self.site` is an association list
with leftmost-key-wins lookup, so `update` is modelled by prepending the new
pairs. -/
def firstRunStep (st : RState) (hd : Header) (dt : ChannelData) : Option RState :=
  if st.firstRun then
    match dt.acceleration with
    | none => none
    | some acc =>
      some { st with
        site := siteFieldsOf hd ++ st.site
        event := hd.event
        magnitudes := hd.magnitudes
        start := hd.bufferStart
        timestep := hd.timestep
        duration := hd.duration
        dataLength := acc.length
        row0 := List.replicate acc.length 0
        row1 := List.replicate acc.length 0
        row2 := List.replicate acc.length 0
        timeRow := (List.range acc.length).map (fun i => (i : ℚ) * hd.timestep)
        firstRun := false }
  else some st

/-- One iteration of the `for header, data in component_iterator(...)` body.
`none` models the `TypeError` raised when the acceleration sequence is absent
(`len(None)`, `None` row assignment, `None` arithmetic).  The caller-visible
trigonometry `cos(radians(axis))` / `sin(radians(axis))` is abstracted as the
two function parameters `cosd`/`sind` on the axis in degrees, since the
transcendental functions themselves play no structural role in the loop.
Elementwise row arithmetic is `List.zipWith`; the source's numpy
broadcasting additionally requires the per-channel sample sequences to share
one length, as the theorems below assume.  A duplicate axis returns the state
unchanged (the source's `continue` additionally skips that iteration's
break check, but a skipped iteration cannot have changed the break condition,
which was already tested false after the previous iteration). -/
def processComp (cosd sind : ℤ → ℚ) (st : RState) (hd : Header) (dt : ChannelData) :
    Option RState :=
  match firstRunStep st hd dt with
  | none => none
  | some st1 =>
    if hd.axis ∈ st1.seenAxes then some st1
    else if hd.axis = 999 then
      match dt.acceleration with
      | none => none
      | some acc =>
        some { st1 with seenAxes := hd.axis :: st1.seenAxes, row2 := acc, vert := true }
    else if st1.horiz < 2 then
      match dt.acceleration with
      | none => none
      | some acc =>
        some { st1 with
          seenAxes := hd.axis :: st1.seenAxes
          row0 := List.zipWith (· + ·) st1.row0 (acc.map (· * cosd hd.axis))
          row1 := List.zipWith (· + ·) st1.row1 (acc.map (· * sind hd.axis))
          horiz := st1.horiz + 1 }
    else some { st1 with seenAxes := hd.axis :: st1.seenAxes }

/-- The component loop of `Record.__init__`, fuelled by an upper bound on the
number of iterations (each successful decode consumes at least one line, so
`length + 1` always suffices; see `recordLoopF_ne_noFuel`).  On `EOFError` the
iterator ends and the post-loop check raises `TooFewComponents` when a
vertical channel or two horizontal channels are missing; the loop breaks
successfully as soon as both are obtained. -/
def recordLoopF (cosd sind : ℤ → ℚ) : ℕ → RState → List String → Except RErr RState
  | 0, _, _ => .error .noFuel
  | n + 1, st, s =>
    match parseComponentAux s with
    | .error .eof =>
      if st.vert = false ∨ st.horiz < 2 then .error .tooFewComponents else .ok st
    | .error e => .error (.parse e)
    | .ok o =>
      match processComp cosd sind st o.header o.data with
      | none => .error .typeError
      | some st1 =>
        if st1.vert = true ∧ st1.horiz = 2 then .ok st1
        else recordLoopF cosd sind n st1 o.rest

/-- The state a `Record` starts from: `self.site = site_info`, no component
seen yet.  The remaining attributes are set on the first iteration; their
initial values are never observable on any success path. -/
def initState (siteInfo : List (String × ℚ)) : RState :=
  { firstRun := true
    site := siteInfo
    event :=
      { time := (0, 0, 0, 0, 0, 0), latitude := 0, longitude := 0,
        hypocentralDepth := 0, centroidDepth := 0, bearing := 0, distance := 0 }
    magnitudes := { ml := 0, ms := 0, mw := 0, mb := 0 }
    start := (0, 0, 0, 0, 0, 0)
    timestep := 0
    duration := 0
    dataLength := 0
    row0 := [], row1 := [], row2 := [], timeRow := []
    seenAxes := []
    horiz := 0
    vert := false }

/-- The constructor `Record.__init__(site_info, source, timezone)` on an open stream: runs the
component loop from the initial state.  On success the returned state holds
the record's attributes; in particular `site` is the final value of the
caller's `site_info` dictionary (the constructor stores and mutates the very
dictionary it is given). -/
def recordInit (cosd sind : ℤ → ℚ) (siteInfo : List (String × ℚ)) (s : List String) :
    Except RErr RState :=
  recordLoopF cosd sind (s.length + 1) (initState siteInfo) s

/-! ### Concrete channel blocks used to instantiate the theorems -/

/-- Right-justify a numeric literal in an 8-character field. -/
def pad8 (x : String) : String :=
  String.mk (List.replicate (8 - x.length) ' ') ++ x

/-- A full 80-character data line of ten 8-character fields. -/
def mkDataLine (xs : List String) : String :=
  String.join (xs.map pad8)

/-- Sixteen nonempty heading lines. -/
def heading16 : List String :=
  List.replicate 16 "GEONET HEADING LINE"

/-- The six floating-point lines: line 1 and lines 4-6 are read but never
parsed; line 2 carries the magnitudes in positions 5-8; line 3 carries
duration (position 1), timestep (position 6) and gravity (position 10). -/
def floatLines : List String :=
  ["0.1 0.2 0.3 0.4 0.5 0.6 0.7 0.8 0.9 1.0",
   "0.1 0.2 0.3 0.4 5.5 5.6 5.7 5.8 0.9 1.0",
   "10.0 0.0 0.0 0.0 0.0 0.02 0.0 0.0 0.0 9810.0",
   "0.0 0.0 0.0 0.0 0.0 0.0 0.0 0.0 0.0 0.0",
   "0.0 0.0 0.0 0.0 0.0 0.0 0.0 0.0 0.0 0.0",
   "0.0 0.0 0.0 0.0 0.0 0.0 0.0 0.0 0.0 0.0"]

/-- The site line: DMS triples for latitude/longitude, longitudinal axis 40,
the channel axis, bearing 123, distance 18. -/
def mkAxisLine (axis : String) : String :=
  "41 17 0 174 46 0 40 " ++ axis ++ " 123 18"

/-- One complete channel block with the given axis, counts line and data
lines. -/
def mkBlock (axis : String) (counts : String) (dataLines : List String) : List String :=
  heading16 ++
    ["2011 2 22 23 51 42 0 0 2011 2",
     "43 30 0 172 40 0 5 5 22 1",
     mkAxisLine axis, counts] ++
    floatLines ++ dataLines

/-- Counts line declaring 10 total and 10 acceleration samples. -/
def countsA10 : String := "10 0 0 10 0 0 0 0 3 55"

def dataLineV : String :=
  mkDataLine ["0.1", "0.2", "0.3", "0.4", "0.5", "0.6", "0.7", "0.8", "0.9", "1.1"]

def dataLineH0 : String :=
  mkDataLine ["1.1", "1.2", "1.3", "1.4", "1.5", "1.6", "1.7", "1.8", "1.9", "2.1"]

def dataLineH90 : String :=
  mkDataLine ["2.1", "2.2", "2.3", "2.4", "2.5", "2.6", "2.7", "2.8", "2.9", "3.1"]

/-- Vertical channel, then horizontals at 0 and 90 degrees. -/
def c4stream : List String :=
  mkBlock "999" countsA10 [dataLineV] ++ mkBlock "0" countsA10 [dataLineH0] ++
    mkBlock "90" countsA10 [dataLineH90]

/-- Two horizontal channels, no vertical channel. -/
def streamNoVert : List String :=
  mkBlock "0" countsA10 [dataLineH0] ++ mkBlock "90" countsA10 [dataLineH90]

/-- A vertical channel and a single horizontal channel. -/
def streamOneHoriz : List String :=
  mkBlock "999" countsA10 [dataLineV] ++ mkBlock "0" countsA10 [dataLineH0]

/-- A structurally perfect block declaring 15 total samples: 10 acceleration
and 5 velocity, with both data lines actually present in the file. -/
def c1stream : List String :=
  mkBlock "999" "15 0 0 10 5 0 0 0 3 55" [dataLineV, dataLineH0]

/-- A block whose raw event-latitude degree field is negative. -/
def c2stream : List String :=
  heading16 ++
    ["2011 2 22 23 51 42 0 0 2011 2",
     "-1 0 0 172 40 0 5 5 22 1",
     mkAxisLine "999", "0 0 0 0 0 0 0 0 3 55"] ++
    floatLines

/-- A block declaring zero acceleration samples but three velocity samples,
followed by one data line. -/
def c6stream : List String :=
  mkBlock "999" "3 0 0 0 3 0 0 0 3 55" [dataLineV]

/-- A block declaring zero acceleration samples (first channel of a file). -/
def c10stream : List String :=
  mkBlock "999" "5 0 0 0 3 0 0 0 3 55" []

/-- Two blocks identical except for the declared total sample count (first
integer of the counts line): 10 versus 9999. -/
def c5stream1 : List String :=
  mkBlock "0" "10 0 0 10 0 0 0 0 3 55" [dataLineH0]

def c5stream2 : List String :=
  mkBlock "0" "9999 0 0 10 0 0 0 0 3 55" [dataLineH0]

/-- A data line containing an all-blank field (field 1) and the NaN sentinel
`999999.9` written with no separating space before its neighbour
`-12.3456`. -/
def c7line : String :=
  "  -1.25 " ++ "        " ++ "999999.9" ++ "-12.3456" ++ "     0.5" ++
    "     0.0" ++ "     0.0" ++ "     0.0" ++ "     0.0" ++ "     0.0"

/-- Caller-supplied site dictionary, with one key the decode overrides and one
it must preserve. -/
def siteDemo : List (String × ℚ) :=
  [("code", 24), ("latitude", 7)]

/-- A concrete cosine table on degree arguments, agreeing with
`cos(radians(axis))` at the bearings 0 and 90 used by the witnesses. -/
def cosTable (axis : ℤ) : ℚ := if axis = 0 then 1 else 0

/-- A concrete sine table on degree arguments, agreeing with
`sin(radians(axis))` at the bearings 0 and 90 used by the witnesses. -/
def sinTable (axis : ℤ) : ℚ := if axis = 90 then 1 else 0

/-- The decode of `c1stream` (a successful decode, projected out of the
`Except`). -/
def c1out : ParseOut := ((parseComponentAux c1stream).toOption).getD default

/-- The decode of `c2stream`. -/
def c2out : ParseOut := ((parseComponentAux c2stream).toOption).getD default

/-- The decode of `c10stream`. -/
def c10out : ParseOut := ((parseComponentAux c10stream).toOption).getD default

/-- The first decode of `c4stream` (the vertical channel). -/
def c4o1 : ParseOut := ((parseComponentAux c4stream).toOption).getD default

/-- The second decode of `c4stream` (the 0-degree channel). -/
def c4o2 : ParseOut := ((parseComponentAux c4o1.rest).toOption).getD default

/-- The third decode of `c4stream` (the 90-degree channel). -/
def c4o3 : ParseOut := ((parseComponentAux c4o2.rest).toOption).getD default

/-- The record assembled from `c4stream`. -/
def c4rec : RState :=
  ((recordInit cosTable sinTable siteDemo c4stream).toOption).getD default

instance {ε α : Type} [DecidableEq ε] [DecidableEq α] : DecidableEq (Except ε α) :=
  fun x y =>
    match x, y with
    | .ok a, .ok b =>
      if h : a = b then isTrue (by rw [h]) else isFalse (fun hc => h (Except.ok.inj hc))
    | .error a, .error b =>
      if h : a = b then isTrue (by rw [h]) else isFalse (fun hc => h (Except.error.inj hc))
    | .ok _, .error _ => isFalse (fun hc => Except.noConfusion hc)
    | .error _, .ok _ => isFalse (fun hc => Except.noConfusion hc)

/-! ### Arithmetic and list lemmas -/

lemma tenCeil_ge (k : ℕ) : k ≤ 10 * ((k + 9) / 10) := by
  have h := Nat.div_add_mod (k + 9) 10
  have h2 : (k + 9) % 10 < 10 := Nat.mod_lt _ (by norm_num)
  omega

lemma length_of_mapMOpt_some {α β : Type} (f : α → Option β) :
    ∀ (l : List α) (l' : List β), mapMOpt f l = some l' → l'.length = l.length := by
  intro l
  induction l with
  | nil => intro l' h; simp [mapMOpt] at h; simp [← h]
  | cons c t ih =>
    intro l' h
    simp only [mapMOpt] at h
    cases hb : f c with
    | none => rw [hb] at h; simp at h
    | some b =>
      rw [hb] at h
      cases hbs : mapMOpt f t with
      | none => rw [hbs] at h; simp at h
      | some bs =>
        rw [hbs] at h
        simp at h
        simp [← h, ih bs hbs]

lemma zipWith_add_replicate_zero_left :
    ∀ (l : List ℚ) (n : ℕ), l.length = n →
      List.zipWith (· + ·) (List.replicate n 0) l = l := by
  intro l
  induction l with
  | nil => intro n h; simp
  | cons c t ih =>
    intro n h
    cases n with
    | zero => simp at h
    | succ m => simp_all [List.replicate_succ]

lemma zipWith_add_replicate_zero_right :
    ∀ (l : List ℚ) (n : ℕ), l.length = n →
      List.zipWith (· + ·) l (List.replicate n 0) = l := by
  intro l
  induction l with
  | nil => intro n h; simp
  | cons c t ih =>
    intro n h
    cases n with
    | zero => simp at h
    | succ m => simp_all [List.replicate_succ]

lemma map_mul_one (l : List ℚ) : l.map (· * 1) = l := by
  induction l with
  | nil => rfl
  | cons c t ih => simp [ih]

lemma map_mul_zero (l : List ℚ) : l.map (· * 0) = List.replicate l.length 0 := by
  induction l with
  | nil => rfl
  | cons c t ih => simp [ih, List.replicate_succ]

/-! ### Stream-consumption lemmas for the decoder -/

lemma readN_snd (n : ℕ) : ∀ s : List String, (readN n s).2 = s.drop n := by
  induction n with
  | zero => intro s; rfl
  | succ m ih =>
    intro s
    show (readN m s.tail).2 = s.drop (m + 1)
    rw [ih s.tail]
    cases s <;> simp

lemma readN_fst_head (n : ℕ) (s : List String) (h : 0 < n) :
    (readN n s).1.headD "" = s.headD "" := by
  cases n with
  | zero => omega
  | succ m => rfl

lemma readData_stop (target : ℕ) (s acc : List String) (h : target ≤ acc.length) :
    readData target s acc = (acc, s) := by
  cases s with
  | nil => simp [readData, h]
  | cons l rest => simp [readData, h]

lemma readData_fst_length (target : ℕ) :
    ∀ (s acc : List String), target ≤ (readData target s acc).1.length := by
  intro s
  induction s with
  | nil =>
    intro acc
    by_cases h : target ≤ acc.length
    · simp [readData, h]
    · simp only [readData, h, if_false]
      have := tenCeil_ge (target - acc.length)
      simp [eofFill]
      omega
  | cons l rest ih =>
    intro acc
    by_cases h : target ≤ acc.length
    · simp [readData, h]
    · simp only [readData, h, if_false]
      exact ih (acc ++ lineFields l)

lemma readData_snd_length (target : ℕ) :
    ∀ (s acc : List String), (readData target s acc).2.length ≤ s.length := by
  intro s
  induction s with
  | nil => intro acc; by_cases h : target ≤ acc.length <;> simp [readData, h]
  | cons l rest ih =>
    intro acc
    by_cases h : target ≤ acc.length
    · simp [readData, h]
    · simp only [readData, h, if_false]
      exact le_trans (ih (acc ++ lineFields l)) (by simp)

lemma readData_snd_drop (target : ℕ) :
    ∀ (s acc : List String),
      (readData target s acc).2 = s.drop (stopIndex target s acc.length) := by
  intro s
  induction s with
  | nil => intro acc; by_cases h : target ≤ acc.length <;> simp [readData, stopIndex, h]
  | cons l rest ih =>
    intro acc
    by_cases h : target ≤ acc.length
    · simp [readData, stopIndex, h]
    · simp only [readData, stopIndex, h, if_false]
      rw [ih (acc ++ lineFields l)]
      simp [List.length_append]

lemma stopIndex_le (target : ℕ) :
    ∀ (s : List String) (c k : ℕ),
      target ≤ c + fieldsCount (s.take k) → stopIndex target s c ≤ k := by
  intro s
  induction s with
  | nil => intro c k _; simp [stopIndex]
  | cons l rest ih =>
    intro c k hk
    by_cases h : target ≤ c
    · simp [stopIndex, h]
    · cases k with
      | zero => simp [fieldsCount] at hk; omega
      | succ m =>
        simp only [stopIndex, h, if_false]
        have : target ≤ c + (lineFields l).length + fieldsCount (rest.take m) := by
          simp only [List.take_succ_cons, fieldsCount, List.map_cons, List.sum_cons] at hk
          simp only [fieldsCount]
          omega
        exact Nat.succ_le_succ (ih (c + (lineFields l).length) m this)

lemma readIntLine_rest (s : List String) (x) (r : List String)
    (h : readIntLine s = .ok (x, r)) : r = s.tail := by
  unfold readIntLine at h
  split at h
  · simp only [Except.ok.injEq, Prod.mk.injEq] at h
    exact h.2.symm
  · simp at h

lemma readFloatLine_rest (s : List String) (x) (r : List String)
    (h : readFloatLine s = .ok (x, r)) : r = s.tail := by
  unfold readFloatLine at h
  split at h
  · simp only [Except.ok.injEq, Prod.mk.injEq] at h
    exact h.2.symm
  · simp at h

lemma stopIndex_min (target : ℕ) :
    ∀ (s : List String) (c k : ℕ),
      k < stopIndex target s c → c + fieldsCount (s.take k) < target := by
  intro s
  induction s with
  | nil => intro c k h; simp [stopIndex] at h
  | cons l rest ih =>
    intro c k hk
    by_cases h : target ≤ c
    · simp [stopIndex, h] at hk
    · cases k with
      | zero => simp [fieldsCount]; omega
      | succ m =>
        simp only [stopIndex, h, if_false] at hk
        have := ih (c + (lineFields l).length) m (by omega)
        simp only [List.take_succ_cons, fieldsCount, List.map_cons, List.sum_cons]
        simp only [fieldsCount] at this
        omega

lemma parseBody_rest_le (hdg : String) (s1 : List String) (o : ParseOut)
    (h : parseBody hdg s1 = .ok o) : o.rest.length ≤ s1.length := by
  unfold parseBody at h
  split at h
  · simp at h
  rename_i s2 heq1
  split at h
  · simp at h
  rename_i s3 heq2
  split at h
  · simp at h
  rename_i s4 heq3
  split at h
  · simp at h
  rename_i s5 heq4
  split at h
  · simp at h
  rename_i s7 heq5
  split at h
  · simp at h
  rename_i s8 heq6
  split at h
  · simp at h
  rename_i allData heq7
  have hrest := congrArg ParseOut.rest (Except.ok.inj h)
  have hr : o.rest.length ≤ (readline (readline (readline s8).2).2).2.length := by
    rw [← hrest]
    exact readData_snd_length _ _ _
  have e2 := readIntLine_rest _ _ _ heq1
  have e3 := readIntLine_rest _ _ _ heq2
  have e4 := readIntLine_rest _ _ _ heq3
  have e5 := readIntLine_rest _ _ _ heq4
  have e7 := readFloatLine_rest _ _ _ heq5
  have e8 := readFloatLine_rest _ _ _ heq6
  subst e2 e3 e4 e5 e7 e8
  simp only [readline, List.length_tail] at hr ⊢
  omega

/-- A successful decode always advances the cursor: the remainder is strictly
shorter than the input stream. -/
lemma parseAux_rest_lt (s : List String) (o : ParseOut)
    (h : parseComponentAux s = .ok o) : o.rest.length < s.length := by
  unfold parseComponentAux at h
  split at h
  · simp at h
  rename_i hcond
  have hb := parseBody_rest_le _ _ _ h
  rw [readN_snd] at hb
  have hs : s ≠ [] := by
    intro he
    subst he
    exact hcond (readN_fst_head 16 [] (by norm_num))
  have h1 : 1 ≤ s.length := by
    cases s with
    | nil => simp at hs
    | cons a t => simp
  simp only [List.length_drop] at hb
  omega

/-- Fuel irrelevance for the component loop: any fuel exceeding the stream
length yields the same result. -/
lemma recordLoopF_fuel (cosd sind : ℤ → ℚ) :
    ∀ (n m : ℕ) (st : RState) (s : List String),
      s.length < n → s.length < m →
      recordLoopF cosd sind n st s = recordLoopF cosd sind m st s := by
  intro n
  induction n with
  | zero => intro m st s h1 _; exact absurd h1 (Nat.not_lt_zero _)
  | succ k ih =>
    intro m st s h1 h2
    cases m with
    | zero => exact absurd h2 (Nat.not_lt_zero _)
    | succ m' =>
      cases hp : parseComponentAux s with
      | error e => cases e <;> simp only [recordLoopF, hp]
      | ok o =>
        cases hq : processComp cosd sind st o.header o.data with
        | none => simp only [recordLoopF, hp, hq]
        | some st1 =>
          by_cases hb : st1.vert = true ∧ st1.horiz = 2
          · simp only [recordLoopF, hp, hq, if_pos hb]
          · simp only [recordLoopF, hp, hq, if_neg hb]
            have hlt := parseAux_rest_lt s o hp
            exact ih m' st1 o.rest (by omega) (by omega)

/-- With sufficient fuel the loop never reports fuel exhaustion: the loop of
`Record.__init__` terminates on every finite stream. -/
lemma recordLoopF_ne_noFuel (cosd sind : ℤ → ℚ) :
    ∀ (n : ℕ) (st : RState) (s : List String),
      s.length < n → recordLoopF cosd sind n st s ≠ .error .noFuel := by
  intro n
  induction n with
  | zero => intro st s h1; exact absurd h1 (Nat.not_lt_zero _)
  | succ k ih =>
    intro st s h1
    cases hp : parseComponentAux s with
    | error e =>
      cases e
      · simp only [recordLoopF, hp]
        split <;> simp
      · simp [recordLoopF, hp]
    | ok o =>
      cases hq : processComp cosd sind st o.header o.data with
      | none => simp [recordLoopF, hp, hq]
      | some st1 =>
        by_cases hb : st1.vert = true ∧ st1.horiz = 2
        · simp [recordLoopF, hp, hq, hb]
        · simp only [recordLoopF, hp, hq, if_neg hb]
          have hlt := parseAux_rest_lt s o hp
          exact ih st1 o.rest (by omega)

lemma recordLoopF_eof (cosd sind : ℤ → ℚ) (n : ℕ) (st : RState) (s : List String)
    (hp : parseComponentAux s = .error .eof) :
    recordLoopF cosd sind (n + 1) st s =
      if st.vert = false ∨ st.horiz < 2 then .error .tooFewComponents else .ok st := by
  simp only [recordLoopF, hp]

lemma recordLoopF_step (cosd sind : ℤ → ℚ) (n : ℕ) (st : RState) (s : List String)
    (o : ParseOut) (st1 : RState)
    (hp : parseComponentAux s = .ok o)
    (hq : processComp cosd sind st o.header o.data = some st1) :
    recordLoopF cosd sind (n + 1) st s =
      if st1.vert = true ∧ st1.horiz = 2 then .ok st1
      else recordLoopF cosd sind n st1 o.rest := by
  simp only [recordLoopF, hp, hq]

lemma recordLoopF_typeError (cosd sind : ℤ → ℚ) (n : ℕ) (st : RState)
    (s : List String) (o : ParseOut)
    (hp : parseComponentAux s = .ok o)
    (hq : processComp cosd sind st o.header o.data = none) :
    recordLoopF cosd sind (n + 1) st s = .error .typeError := by
  simp only [recordLoopF, hp, hq]

lemma firstRunStep_false (st : RState) (hd : Header) (dt : ChannelData)
    (hf : st.firstRun = false) : firstRunStep st hd dt = some st := by
  simp [firstRunStep, hf]

/-- After the first iteration, no branch of the loop body touches `self.site`
or resets `first_run`. -/
lemma processComp_not_first (cosd sind : ℤ → ℚ) (st : RState) (hd : Header)
    (dt : ChannelData) (st1 : RState)
    (hf : st.firstRun = false)
    (h : processComp cosd sind st hd dt = some st1) :
    st1.site = st.site ∧ st1.firstRun = false := by
  simp only [processComp, firstRunStep_false st hd dt hf] at h
  split at h
  · rw [← Option.some.inj h]
    exact ⟨rfl, hf⟩
  · split at h
    · split at h
      · simp at h
      · rw [← Option.some.inj h]
        exact ⟨rfl, hf⟩
    · split at h
      · split at h
        · simp at h
        · rw [← Option.some.inj h]
          exact ⟨rfl, hf⟩
      · rw [← Option.some.inj h]
        exact ⟨rfl, hf⟩

/-- The first iteration merges `header['site']` into the caller's dictionary
and clears `first_run`; the axis branches leave both alone. -/
lemma processComp_first (cosd sind : ℤ → ℚ) (st : RState) (hd : Header)
    (dt : ChannelData) (st1 : RState)
    (hf : st.firstRun = true)
    (h : processComp cosd sind st hd dt = some st1) :
    st1.site = siteFieldsOf hd ++ st.site ∧ st1.firstRun = false := by
  cases hacc : dt.acceleration with
  | none =>
    have hstep : firstRunStep st hd dt = none := by simp [firstRunStep, hf, hacc]
    simp [processComp, hstep] at h
  | some acc =>
    have hstep : firstRunStep st hd dt = some
        { st with
          site := siteFieldsOf hd ++ st.site
          event := hd.event
          magnitudes := hd.magnitudes
          start := hd.bufferStart
          timestep := hd.timestep
          duration := hd.duration
          dataLength := acc.length
          row0 := List.replicate acc.length 0
          row1 := List.replicate acc.length 0
          row2 := List.replicate acc.length 0
          timeRow := (List.range acc.length).map (fun i => (i : ℚ) * hd.timestep)
          firstRun := false } := by
      simp [firstRunStep, hf, hacc]
    simp only [processComp, hstep] at h
    split at h
    · rw [← Option.some.inj h]
      exact ⟨rfl, rfl⟩
    · split at h
      · split at h
        · simp at h
        · rw [← Option.some.inj h]
          exact ⟨rfl, rfl⟩
      · split at h
        · split at h
          · simp at h
          · rw [← Option.some.inj h]
            exact ⟨rfl, rfl⟩
        · rw [← Option.some.inj h]
          exact ⟨rfl, rfl⟩

/-- Inversion of a successful decode: how the returned data sequences are
carved out of the accumulated value sequence, how the latitudes are computed
from the raw DMS fields, and the guarantee of the sample loop that the
accumulated sequence reaches the declared acceleration count.  Note the
displacement gate: presence is decided by the duration float, not by the
declared displacement count, mirroring the rebinding of `d` in the source. -/
lemma parseAux_ok_fields (s : List String) (o : ParseOut)
    (h : parseComponentAux s = .ok o) :
    (o.data.acceleration = if o.countA = 0 then none
      else some (((o.allData.drop o.pre.toNat).take o.countA.toNat).map (· / 1000))) ∧
    (o.data.velocity = if o.countV = 0 then none
      else some (((o.allData.drop
        (o.pre.toNat + if o.countA = 0 then 0 else o.countA.toNat)).take
          o.countV.toNat).map (· / 1000))) ∧
    (o.header.duration = 0 → o.data.displacement = none) ∧
    (o.header.duration ≠ 0 → o.data.displacement.isSome = true) ∧
    o.header.event.latitude =
      -((o.eDeg : ℚ) + ((o.eMin : ℚ) * 60 + (o.eSec : ℚ)) / 3600) ∧
    o.header.siteLatitude =
      -((o.sDeg : ℚ) + ((o.sMin : ℚ) * 60 + (o.sSec : ℚ)) / 3600) ∧
    o.countA.toNat ≤ o.allData.length := by
  unfold parseComponentAux at h
  split at h
  · simp at h
  unfold parseBody at h
  split at h
  · simp at h
  rename_i y mo dy hr mn sec xa xb byr bmo s2 heq1
  split at h
  · simp at h
  rename_i ed em es edd emm ess eh ec bdy bhr s3 heq2
  split at h
  · simp at h
  rename_i sd sm ssec sdd smm sss la cd br dist s4 heq3
  split at h
  · simp at h
  rename_i t pre app a v dcount x7 x8 bmin bsec s5 heq4
  split at h
  · simp at h
  rename_i u1 u2 u3 u4 ml ms mw mb u5 u6 s7 heq5
  split at h
  · simp at h
  rename_i dur w2 w3 w4 w5 dt w7 w8 w9 g s8 heq6
  split at h
  · simp at h
  rename_i allData heq7
  simp only [Except.ok.injEq] at h
  subst h
  refine ⟨?_, ?_, ?_, ?_, ?_, ?_, ?_⟩
  · by_cases ha : a = 0 <;> simp [ha]
  · by_cases ha : a = 0 <;> by_cases hv : v = 0 <;> simp [ha, hv]
  · intro hd0
    simp only at hd0
    simp [hd0]
  · intro hd0
    simp only at hd0
    simp [hd0]
  · rfl
  · rfl
  · have hlen := length_of_mapMOpt_some parseFloat? _ _ heq7
    show a.toNat ≤ allData.length
    rw [hlen]
    exact readData_fst_length _ _ _

/-- On any success path entered with `first_run` already cleared, the
resulting record's `site` is the state's `site`, untouched. -/
lemma recordLoopF_site_inv (cosd sind : ℤ → ℚ) :
    ∀ (n : ℕ) (st : RState) (s : List String) (r : RState),
      st.firstRun = false → recordLoopF cosd sind n st s = .ok r →
      r.site = st.site := by
  intro n
  induction n with
  | zero => intro st s r _ h; simp [recordLoopF] at h
  | succ k ih =>
    intro st s r hf h
    cases hp : parseComponentAux s with
    | error e =>
      cases e with
      | eof =>
        rw [recordLoopF_eof _ _ _ _ _ hp] at h
        split at h
        · simp at h
        · rw [← Except.ok.inj h]
      | malformed => simp [recordLoopF, hp] at h
    | ok o =>
      cases hq : processComp cosd sind st o.header o.data with
      | none => simp [recordLoopF, hp, hq] at h
      | some st1 =>
        have hps := processComp_not_first _ _ _ _ _ _ hf hq
        rw [recordLoopF_step _ _ _ _ _ _ _ hp hq] at h
        split at h
        · rw [← Except.ok.inj h]
          exact hps.1
        · exact (ih st1 o.rest r hps.2 h).trans hps.1

/-! ### Claim theorems -/

/-- Claim C5: during fixed-width sample reading the decoder reads whole data
lines and stops as soon as the accumulated non-blank field count reaches the
declared acceleration-sample count: once the count is reached no further line
is consumed, the remainder of the stream is exactly the input minus the
minimal number of whole lines whose fields reach the count (no earlier and no
later stop), and the result is independent of the declared total sample count
(two streams differing only in that field decode identically). -/
theorem c5_theorem :
    (∀ (a : ℕ) (stream acc : List String),
      a ≤ acc.length → readData a stream acc = (acc, stream)) ∧
    (∀ (a : ℕ) (stream acc : List String),
      (readData a stream acc).2 = stream.drop (stopIndex a stream acc.length)) ∧
    (∀ (a : ℕ) (stream : List String) (c k : ℕ),
      a ≤ c + fieldsCount (stream.take k) → stopIndex a stream c ≤ k) ∧
    (∀ (a : ℕ) (stream : List String) (c k : ℕ),
      k < stopIndex a stream c → c + fieldsCount (stream.take k) < a) ∧
    parseComponent c5stream1 = parseComponent c5stream2 :=
  ⟨readData_stop, readData_snd_drop, stopIndex_le, stopIndex_min,
    by set_option maxRecDepth 40000 in decide⟩

theorem c5_witness :
    readData 10 [dataLineH90] (lineFields dataLineH0) =
      (lineFields dataLineH0, [dataLineH90]) ∧
    stopIndex 10 [dataLineH0] 0 ≤ 1 :=
  ⟨c5_theorem.1 10 [dataLineH90] (lineFields dataLineH0) (by decide),
   c5_theorem.2.2.1 10 [dataLineH0] 0 1 (by decide)⟩

/-- Claim C6 (counterexample): the claim asserts that with zero declared
acceleration samples the stopping rule never terminates the sample loop.  In
fact the loop guard `len(all_data) < 0` is false at once: on a block
declaring zero acceleration and three velocity samples, the loop terminates
immediately, consuming no data line (the data line is still in the remainder)
and accumulating nothing. -/
theorem c6_counterexample :
    readData 0 [dataLineV] [] = ([], [dataLineV]) ∧
    stopIndex 0 [dataLineV] 0 = 0 ∧
    (parseComponentAux c6stream).map (fun o => (o.countA, o.countV, o.allData, o.rest)) =
      .ok (0, 3, [], [dataLineV]) := by
  refine ⟨by decide, by decide, by decide⟩

/-- Claim C6 (amended): if a channel block declares zero acceleration samples,
the sample-reading loop terminates immediately, reading no data line and
accumulating no value, regardless of any nonzero velocity or displacement
count (which the loop never consults). -/
theorem c6_theorem :
    ∀ (stream acc : List String), readData 0 stream acc = (acc, stream) := by
  intro stream acc
  cases stream <;> simp [readData]

/-- Claim C7: each data line is split positionally into ten 8-character
fields; every field kept in the accumulated sequence is non-blank (an
all-whitespace field contributes no value, and in particular is never parsed
as zero), and on the concrete regression line the sentinel `999999.9` written
flush against its neighbour `-12.3456` is still sliced apart and both parse
to their correct values. -/
theorem c7_theorem :
    (∀ (line : String) (f : String), f ∈ lineFields line → isSpaceStr f = false) ∧
    lineFields c7line =
      ["  -1.25 ", "999999.9", "-12.3456", "     0.5",
       "     0.0", "     0.0", "     0.0", "     0.0", "     0.0"] ∧
    (lineFields c7line).map parseFloat? =
      [some (-(5 / 4 : ℚ)), some ((9999999 : ℚ) / 10), some (-((123456 : ℚ) / 10000)),
       some ((1 : ℚ) / 2), some 0, some 0, some 0, some 0, some 0] := by
  refine ⟨?_, by decide, by decide⟩
  intro line f hf
  simpa using (List.mem_filter.mp hf).2

theorem c7_witness : isSpaceStr "999999.9" = false :=
  c7_theorem.1 c7line "999999.9" (by decide)

/-- Claim C8: a stream whose first heading read returns no data makes
`parse_component` signal end-of-input (`EOFError`), which
`component_iterator` turns into clean termination; an empty stream therefore
yields end-of-input on the first decode, which is distinct from the
malformed-block error. -/
theorem c8_theorem :
    (∀ s : List String, s.headD "" = "" → parseComponentAux s = .error .eof) ∧
    componentIterator [] = some (.ok []) ∧
    PErr.eof ≠ PErr.malformed := by
  refine ⟨?_, by decide, by decide⟩
  intro s hs
  have hh : (readN 16 s).1.headD "" = "" := by
    rw [readN_fst_head 16 s (by norm_num)]
    exact hs
  unfold parseComponentAux
  rw [if_pos hh]

theorem c8_witness : parseComponentAux [] = .error .eof :=
  c8_theorem.1 [] rfl

/-- Claim C1 (counterexample): on a structurally perfect block declaring 10
acceleration and 5 velocity samples (declared total 15, and both data lines
really present in the stream), the decode returns a velocity sequence of
length 0, not 5 — the sample loop stopped at the acceleration count, so the
velocity slice is clipped to nothing — and although the declared displacement
count is 0, the displacement kind is *present* (the source's `d` has been
rebound to the duration float by the time the displacement slice is gated). -/
theorem c1_counterexample :
    (parseComponentAux c1stream).map
        (fun o => (o.countV, o.data.velocity.map List.length,
                   o.countD, o.data.displacement.isSome)) =
      .ok (5, some 0, 0, true) := by
  decide

/-- Claim C1 (amended): a kind with declared count zero is absent for
acceleration and velocity; with a zero pre-event offset a nonzero declared
acceleration count yields a present sequence of exactly that length (the loop
guarantees at least that many values accumulate); a nonzero declared velocity
count yields a present sequence of length `min(count, accumulated − countA)`,
which can fall short of the declared count because accumulation stops at the
acceleration count; and displacement presence is gated on the duration float,
not on the declared displacement count. -/
theorem c1_theorem (s : List String) (o : ParseOut)
    (h : parseComponentAux s = .ok o) (hpre : o.pre = 0) :
    (o.countA = 0 → o.data.acceleration = none) ∧
    (o.countA ≠ 0 → ∃ l, o.data.acceleration = some l ∧ l.length = o.countA.toNat) ∧
    (o.countV = 0 → o.data.velocity = none) ∧
    (o.countV ≠ 0 → ∃ l, o.data.velocity = some l ∧
      l.length = min o.countV.toNat (o.allData.length - o.countA.toNat)) ∧
    (o.header.duration = 0 → o.data.displacement = none) ∧
    (o.header.duration ≠ 0 → o.data.displacement.isSome = true) := by
  obtain ⟨hacc, hvel, hd0, hd1, -, -, hlen⟩ := parseAux_ok_fields s o h
  refine ⟨?_, ?_, ?_, ?_, hd0, hd1⟩
  · intro h0
    rw [hacc]
    simp [h0]
  · intro h0
    rw [hacc]
    simp only [h0, if_false]
    refine ⟨_, rfl, ?_⟩
    simp only [List.length_map, List.length_take, List.length_drop, hpre]
    omega
  · intro h0
    rw [hvel]
    simp [h0]
  · intro h0
    rw [hvel]
    simp only [h0, if_false]
    refine ⟨_, rfl, ?_⟩
    by_cases hca : o.countA = 0
    · simp only [List.length_map, List.length_take, List.length_drop, hpre, hca]
      simp [hca]
    · simp only [List.length_map, List.length_take, List.length_drop, hpre, if_neg hca]
      omega

theorem c1_witness :
    (∃ l, c1out.data.velocity = some l ∧
      l.length = min c1out.countV.toNat (c1out.allData.length - c1out.countA.toNat)) ∧
    c1out.data.displacement.isSome = true :=
  ⟨(c1_theorem c1stream c1out (by decide) (by decide)).2.2.2.1 (by decide),
   (c1_theorem c1stream c1out (by decide) (by decide)).2.2.2.2.2 (by decide)⟩

/-- Claim C2 (counterexample): the claim asserts the decoded latitudes are
negative regardless of the raw sign of the degree field.  On a block whose
raw event degree field is −1 (minutes and seconds 0), the decoded event
latitude is +1: the fixed `-1 *` factor flips the sign of whatever the raw
DMS value is, so a negative raw degree field produces a positive latitude. -/
theorem c2_counterexample :
    (parseComponentAux c2stream).map (fun o => (o.eDeg, o.header.event.latitude)) =
      .ok (-1, 1) ∧ ¬((1 : ℚ) < 0) :=
  ⟨by decide, by norm_num⟩

/-- Claim C2 (amended): the decoded event and site latitudes equal
`-(deg + (min*60 + sec)/3600)` computed from the raw degree/minute/second
fields; consequently they are negative exactly when the raw DMS combination
is positive (as for the nonnegative, nonzero fields of the source catalog),
not regardless of its sign. -/
theorem c2_theorem (s : List String) (o : ParseOut)
    (h : parseComponentAux s = .ok o) :
    o.header.event.latitude =
      -((o.eDeg : ℚ) + ((o.eMin : ℚ) * 60 + (o.eSec : ℚ)) / 3600) ∧
    o.header.siteLatitude =
      -((o.sDeg : ℚ) + ((o.sMin : ℚ) * 60 + (o.sSec : ℚ)) / 3600) ∧
    (0 < (o.eDeg : ℚ) + ((o.eMin : ℚ) * 60 + (o.eSec : ℚ)) / 3600 →
      o.header.event.latitude < 0) ∧
    (0 < (o.sDeg : ℚ) + ((o.sMin : ℚ) * 60 + (o.sSec : ℚ)) / 3600 →
      o.header.siteLatitude < 0) := by
  obtain ⟨-, -, -, -, he, hs, -⟩ := parseAux_ok_fields s o h
  refine ⟨he, hs, ?_, ?_⟩
  · intro hpos
    rw [he]
    exact neg_lt_zero.mpr hpos
  · intro hpos
    rw [hs]
    exact neg_lt_zero.mpr hpos

theorem c2_witness :
    c2out.header.siteLatitude < 0 ∧ c2out.header.event.latitude = 1 :=
  ⟨(c2_theorem c2stream c2out (by decide)).2.2.2 (by decide), by decide⟩

/-- Claim C3 (counterexample): the claim asserts that the insufficient-channels
failure carries which requirement was unmet.  A stream with two horizontal
channels and no vertical channel, and a stream with a vertical channel and
only one horizontal channel, fail for different unmet requirements yet
produce the *same* error value — `TooFewComponents` is raised bare (the
exception class has no fields and is raised with no arguments), so nothing
distinguishes the two failure modes for the caller. -/
theorem c3_counterexample :
    recordInit cosTable sinTable siteDemo streamNoVert = .error .tooFewComponents ∧
    recordInit cosTable sinTable siteDemo streamOneHoriz = .error .tooFewComponents ∧
    recordInit cosTable sinTable siteDemo streamNoVert =
      recordInit cosTable sinTable siteDemo streamOneHoriz := by
  refine ⟨by decide, by decide, by decide⟩

/-- Claim C3 (amended): whenever the channel sequence is exhausted (the
decoder reports end-of-input) while the state still lacks the vertical
channel or has fewer than two horizontal channels, `Record.__init__` fails
with the bare `TooFewComponents` error — the same payload-free value in
either case, carrying no indication of which requirement was unmet. -/
theorem c3_theorem (cosd sind : ℤ → ℚ) (n : ℕ) (st : RState)
    (hcond : st.vert = false ∨ st.horiz < 2) :
    recordLoopF cosd sind (n + 1) st [] = .error .tooFewComponents := by
  rw [recordLoopF_eof cosd sind n st [] (by decide)]
  rw [if_pos hcond]

theorem c3_witness :
    recordLoopF cosTable sinTable 1 (initState siteDemo) [] =
      .error .tooFewComponents :=
  c3_theorem cosTable sinTable 0 (initState siteDemo) (Or.inl rfl)

/-- Claim C10: if the first decoded channel of a file declares zero
acceleration samples, its returned acceleration entry is absent (`None`), and
`Record.__init__` then fails with the untyped `TypeError` (from
`len(None)`), which is none of the typed failures (end-of-input,
malformed-block, insufficient-channels). -/
theorem c10_theorem (cosd sind : ℤ → ℚ) (si : List (String × ℚ))
    (s : List String) (o : ParseOut)
    (h : parseComponentAux s = .ok o) (ha : o.countA = 0) :
    o.data.acceleration = none ∧
    recordInit cosd sind si s = .error .typeError ∧
    RErr.typeError ≠ RErr.parse .eof ∧
    RErr.typeError ≠ RErr.parse .malformed ∧
    RErr.typeError ≠ RErr.tooFewComponents := by
  have hacc : o.data.acceleration = none := by
    obtain ⟨ha', -⟩ := parseAux_ok_fields s o h
    rw [ha']
    simp [ha]
  have hq : processComp cosd sind (initState si) o.header o.data = none := by
    have hstep : firstRunStep (initState si) o.header o.data = none := by
      simp [firstRunStep, initState, hacc]
    simp [processComp, hstep]
  refine ⟨hacc, ?_, by decide, by decide, by decide⟩
  show recordLoopF cosd sind (s.length + 1) (initState si) s = .error .typeError
  exact recordLoopF_typeError cosd sind s.length (initState si) s o h hq

theorem c10_witness :
    c10out.data.acceleration = none ∧
    recordInit cosTable sinTable siteDemo c10stream = .error .typeError :=
  ⟨(c10_theorem cosTable sinTable siteDemo c10stream c10out (by decide) (by decide)).1,
   (c10_theorem cosTable sinTable siteDemo c10stream c10out (by decide) (by decide)).2.1⟩

/-- Claim C9: on any successful construction, the record's `site` is the very
caller-supplied dictionary updated in place with the four site fields decoded
from the first channel (`latitude`, `longitude`, `longitudinal_axis`,
`local_gravity`); looking up each of those keys yields the decoded value
(overriding any caller value for the same key), and every other key still
yields exactly what the caller's dictionary held — the dictionary is mutated,
not replaced. -/
theorem c9_theorem (cosd sind : ℤ → ℚ) (si : List (String × ℚ))
    (s : List String) (r : RState) (o1 : ParseOut)
    (h : recordInit cosd sind si s = .ok r)
    (hp : parseComponentAux s = .ok o1) :
    r.site = siteFieldsOf o1.header ++ si ∧
    List.lookup "latitude" r.site = some o1.header.siteLatitude ∧
    List.lookup "longitude" r.site = some o1.header.siteLongitude ∧
    List.lookup "longitudinal_axis" r.site = some ((o1.header.longitudinalAxis : ℚ)) ∧
    List.lookup "local_gravity" r.site = some o1.header.localGravity ∧
    (∀ k : String, k ≠ "latitude" → k ≠ "longitude" → k ≠ "longitudinal_axis" →
      k ≠ "local_gravity" → List.lookup k r.site = List.lookup k si) := by
  unfold recordInit at h
  have hmain : r.site = siteFieldsOf o1.header ++ si := by
    cases hq : processComp cosd sind (initState si) o1.header o1.data with
    | none =>
      rw [recordLoopF_typeError cosd sind s.length (initState si) s o1 hp hq] at h
      simp at h
    | some st1 =>
      have hfst := processComp_first cosd sind (initState si) o1.header o1.data st1 rfl hq
      rw [recordLoopF_step cosd sind s.length (initState si) s o1 st1 hp hq] at h
      have hsite : r.site = st1.site := by
        split at h
        · rw [← Except.ok.inj h]
        · exact recordLoopF_site_inv cosd sind s.length st1 o1.rest r hfst.2 h
      rw [hsite, hfst.1]
      rfl
  refine ⟨hmain, ?_, ?_, ?_, ?_, ?_⟩
  · rw [hmain]
    simp [siteFieldsOf, List.lookup]
  · rw [hmain]
    simp [siteFieldsOf, List.lookup]
  · rw [hmain]
    simp [siteFieldsOf, List.lookup]
  · rw [hmain]
    simp [siteFieldsOf, List.lookup]
  · intro k hk1 hk2 hk3 hk4
    rw [hmain]
    have b1 : (k == "latitude") = false := beq_eq_false_iff_ne.mpr hk1
    have b2 : (k == "longitude") = false := beq_eq_false_iff_ne.mpr hk2
    have b3 : (k == "longitudinal_axis") = false := beq_eq_false_iff_ne.mpr hk3
    have b4 : (k == "local_gravity") = false := beq_eq_false_iff_ne.mpr hk4
    simp [siteFieldsOf, List.lookup, b1, b2, b3, b4]

theorem c9_witness :
    c4rec.site = siteFieldsOf c4o1.header ++ siteDemo ∧
    List.lookup "latitude" c4rec.site = some c4o1.header.siteLatitude ∧
    List.lookup "code" c4rec.site = List.lookup "code" siteDemo := by
  have hthm := c9_theorem cosTable sinTable siteDemo c4stream c4rec c4o1
    (by decide) (by decide)
  exact ⟨hthm.1, hthm.2.1,
    hthm.2.2.2.2.2 "code" (by decide) (by decide) (by decide) (by decide)⟩

/-- Claim C4: a file yielding exactly one vertical channel (axis 999, samples
`v`) and two horizontal channels at axes 0 and 90 (samples `a0`, `a90`, of
the same length as `v`) assembles into a Record whose acceleration grid has
row 0 = `a0`, row 1 = `a90` and row 2 = `v` element-wise — the degenerate
orthogonal case where the projection (cos/sin at 0° and 90°) is the
identity.  The trigonometry on the axis angle is the abstract pair
`cosd`/`sind`, constrained here to their exact real values at those two
bearings. -/
theorem c4_theorem (cosd sind : ℤ → ℚ) (si : List (String × ℚ))
    (s : List String) (o1 o2 o3 : ParseOut) (v a0 a90 : List ℚ)
    (hp1 : parseComponentAux s = .ok o1)
    (hax1 : o1.header.axis = 999) (hac1 : o1.data.acceleration = some v)
    (hp2 : parseComponentAux o1.rest = .ok o2)
    (hax2 : o2.header.axis = 0) (hac2 : o2.data.acceleration = some a0)
    (hp3 : parseComponentAux o2.rest = .ok o3)
    (hax3 : o3.header.axis = 90) (hac3 : o3.data.acceleration = some a90)
    (hl2 : a0.length = v.length) (hl3 : a90.length = v.length)
    (hc0 : cosd 0 = 1) (hs0 : sind 0 = 0)
    (hc90 : cosd 90 = 0) (hs90 : sind 90 = 1) :
    ∃ r, recordInit cosd sind si s = .ok r ∧
      r.row0 = a0 ∧ r.row1 = a90 ∧ r.row2 = v := by
  have hq1 : processComp cosd sind (initState si) o1.header o1.data = some
      ⟨false, siteFieldsOf o1.header ++ si, o1.header.event, o1.header.magnitudes,
       o1.header.bufferStart, o1.header.timestep, o1.header.duration, v.length,
       List.replicate v.length 0, List.replicate v.length 0, v,
       (List.range v.length).map (fun i => (i : ℚ) * o1.header.timestep),
       [999], 0, true⟩ := by
    simp [processComp, firstRunStep, initState, hax1, hac1]
  have hq2 : processComp cosd sind
      ⟨false, siteFieldsOf o1.header ++ si, o1.header.event, o1.header.magnitudes,
       o1.header.bufferStart, o1.header.timestep, o1.header.duration, v.length,
       List.replicate v.length 0, List.replicate v.length 0, v,
       (List.range v.length).map (fun i => (i : ℚ) * o1.header.timestep),
       [999], 0, true⟩ o2.header o2.data = some
      ⟨false, siteFieldsOf o1.header ++ si, o1.header.event, o1.header.magnitudes,
       o1.header.bufferStart, o1.header.timestep, o1.header.duration, v.length,
       List.zipWith (· + ·) (List.replicate v.length 0) (a0.map (· * cosd 0)),
       List.zipWith (· + ·) (List.replicate v.length 0) (a0.map (· * sind 0)), v,
       (List.range v.length).map (fun i => (i : ℚ) * o1.header.timestep),
       [0, 999], 1, true⟩ := by
    simp [processComp, firstRunStep, hax2, hac2]
  have hq3 : processComp cosd sind
      ⟨false, siteFieldsOf o1.header ++ si, o1.header.event, o1.header.magnitudes,
       o1.header.bufferStart, o1.header.timestep, o1.header.duration, v.length,
       List.zipWith (· + ·) (List.replicate v.length 0) (a0.map (· * cosd 0)),
       List.zipWith (· + ·) (List.replicate v.length 0) (a0.map (· * sind 0)), v,
       (List.range v.length).map (fun i => (i : ℚ) * o1.header.timestep),
       [0, 999], 1, true⟩ o3.header o3.data = some
      ⟨false, siteFieldsOf o1.header ++ si, o1.header.event, o1.header.magnitudes,
       o1.header.bufferStart, o1.header.timestep, o1.header.duration, v.length,
       List.zipWith (· + ·)
         (List.zipWith (· + ·) (List.replicate v.length 0) (a0.map (· * cosd 0)))
         (a90.map (· * cosd 90)),
       List.zipWith (· + ·)
         (List.zipWith (· + ·) (List.replicate v.length 0) (a0.map (· * sind 0)))
         (a90.map (· * sind 90)), v,
       (List.range v.length).map (fun i => (i : ℚ) * o1.header.timestep),
       [90, 0, 999], 2, true⟩ := by
    simp [processComp, firstRunStep, hax3, hac3]
  refine ⟨⟨false, siteFieldsOf o1.header ++ si, o1.header.event, o1.header.magnitudes,
       o1.header.bufferStart, o1.header.timestep, o1.header.duration, v.length,
       List.zipWith (· + ·)
         (List.zipWith (· + ·) (List.replicate v.length 0) (a0.map (· * cosd 0)))
         (a90.map (· * cosd 90)),
       List.zipWith (· + ·)
         (List.zipWith (· + ·) (List.replicate v.length 0) (a0.map (· * sind 0)))
         (a90.map (· * sind 90)), v,
       (List.range v.length).map (fun i => (i : ℚ) * o1.header.timestep),
       [90, 0, 999], 2, true⟩, ?_, ?_, ?_, rfl⟩
  · show recordLoopF cosd sind (s.length + 1) (initState si) s = _
    rw [recordLoopF_step cosd sind s.length (initState si) s o1 _ hp1 hq1,
      if_neg (by simp)]
    rw [recordLoopF_fuel cosd sind s.length (o1.rest.length + 1) _ o1.rest
      (parseAux_rest_lt s o1 hp1) (Nat.lt_succ_self _)]
    rw [recordLoopF_step cosd sind o1.rest.length _ o1.rest o2 _ hp2 hq2,
      if_neg (by simp)]
    rw [recordLoopF_fuel cosd sind o1.rest.length (o2.rest.length + 1) _ o2.rest
      (parseAux_rest_lt o1.rest o2 hp2) (Nat.lt_succ_self _)]
    rw [recordLoopF_step cosd sind o2.rest.length _ o2.rest o3 _ hp3 hq3,
      if_pos ⟨rfl, rfl⟩]
  · show List.zipWith (· + ·)
      (List.zipWith (· + ·) (List.replicate v.length 0) (a0.map (· * cosd 0)))
      (a90.map (· * cosd 90)) = a0
    rw [hc0, hc90, map_mul_one, map_mul_zero, hl3,
      zipWith_add_replicate_zero_left a0 v.length hl2,
      zipWith_add_replicate_zero_right a0 v.length hl2]
  · show List.zipWith (· + ·)
      (List.zipWith (· + ·) (List.replicate v.length 0) (a0.map (· * sind 0)))
      (a90.map (· * sind 90)) = a90
    rw [hs0, hs90, map_mul_one, map_mul_zero, hl2,
      zipWith_add_replicate_zero_left (List.replicate v.length 0) v.length (by simp),
      zipWith_add_replicate_zero_left a90 v.length hl3]

theorem c4_witness :
    ∃ r, recordInit cosTable sinTable siteDemo c4stream = .ok r ∧
      r.row0 = c4o2.data.acceleration.getD [] ∧
      r.row1 = c4o3.data.acceleration.getD [] ∧
      r.row2 = c4o1.data.acceleration.getD [] :=
  c4_theorem cosTable sinTable siteDemo c4stream c4o1 c4o2 c4o3
    (c4o1.data.acceleration.getD []) (c4o2.data.acceleration.getD [])
    (c4o3.data.acceleration.getD [])
    (by decide) (by decide) (by decide)
    (by decide) (by decide) (by decide)
    (by decide) (by decide) (by decide)
    (by decide) (by decide)
    (by decide) (by decide) (by decide) (by decide)

end Geomotion
